import Mathlib

/-!
Verification of the authentication core of a task-management backend.

Shallow embedding of the code paths relevant to token issuance and
verification (`app/core/security.py`), token revocation and rate limiting
over the shared expiring store (`app/core/redis.py`), the account-lockout
tracker (`app/models/user.py`, `app/crud/user.py`), and the authentication
service and its HTTP endpoints (`app/services/auth.py`, `app/api/v1/auth.py`).

Modelling conventions:
* Time is a `Nat` (seconds).  Every operation that reads the clock takes
  the current time `now` as an explicit argument.
* The shared expiring key-value store (Redis) is a `Store`: an association
  list of `(key, value, expiresAt)`.  A read at time `now` sees an entry
  only while `now < expiresAt`, mirroring Redis key expiry.
* Stored values are `RVal`: `RVal.num n` stands for the decimal string of
  `n` (all values this code ever writes are such strings: counters and the
  blacklist marker "1"), and `RVal.raw s` stands for a string that Python's
  `int()` cannot parse.  This keeps `int()`-parsing faithful without
  decimal-digit reasoning.
* A JWT is a `Token`: its decoded payload plus a Boolean `sigValid` that
  abstracts "the signature verifies under the server's secret".  All
  issuance sites in the source sign with the server key and always set the
  `exp` and `iat` claims, so `exp`/`iat` are mandatory fields, while `sub`,
  `jti` and `type` are `Option`s exactly as in the dict-shaped payloads.
* `uuid4()` jti generation is modelled by passing the fresh identifier as
  an argument.
* The Argon2 hasher is an external library; the flows are parameterised
  over `verify`/`hash`/`check_needs_rehash` functions, since no claim here
  depends on Argon2 internals, only on how the code wraps them.
-/

namespace SimpleTask

/-- A value stored in Redis: a numeric string (`num n` is the decimal
string of `n`) or a string `int()` cannot parse. -/
inductive RVal where
  | num (n : Nat)
  | raw (s : String)
deriving DecidableEq, Repr

/-- Python `int(value)` on a stored value: succeeds exactly on numeric
strings. -/
def RVal.toNatOpt : RVal → Option Nat
  | RVal.num n => some n
  | RVal.raw _ => none

/-- The shared expiring key-value store (Redis): entries are
`(key, value, expiresAt)`. -/
structure Store where
  entries : List (String × RVal × Nat)
deriving DecidableEq, Repr

/-- `GET key` at time `now`: an entry is visible only while `now` is
strictly before its expiry, mirroring Redis key expiration. -/
def Store.get (s : Store) (now : Nat) (k : String) : Option RVal :=
  match s.entries.find? (fun e => e.1 = k) with
  | some e => if now < e.2.2 then some e.2.1 else none
  | none => none

/-- `SET key value EX expire` at time `now` (embeds `RedisCache.set`). -/
def Store.set (s : Store) (now : Nat) (k : String) (v : RVal) (expire : Nat) : Store :=
  ⟨(k, v, now + expire) :: s.entries.filter (fun e => e.1 ≠ k)⟩

/-- `EXISTS key` at time `now` (embeds `RedisCache.exists`; the name
`exists` itself is reserved in Lean). -/
def Store.existsKey (s : Store) (now : Nat) (k : String) : Bool :=
  (s.get now k).isSome

/-- `INCR key`: increments the numeric value in place, keeping the entry's
expiry (Redis `INCR` does not touch the TTL).  In the embedded flows this
is only ever called on a key that was just read back as a numeric value. -/
def Store.incr (s : Store) (k : String) : Store :=
  ⟨s.entries.map (fun e =>
    if e.1 = k then
      (e.1, (match e.2.1 with
             | RVal.num n => RVal.num (n + 1)
             | RVal.raw v => RVal.raw v), e.2.2)
    else e)⟩

/-! ## Token codec (`app/core/security.py`) -/

/-- Token type constants `TOKEN_TYPE_ACCESS` / `TOKEN_TYPE_REFRESH` /
`TOKEN_TYPE_PASSWORD_RESET`. -/
def TOKEN_TYPE_ACCESS : String := "access"

def TOKEN_TYPE_REFRESH : String := "refresh"

def TOKEN_TYPE_PASSWORD_RESET : String := "password_reset"

/-- Decoded JWT payload.  `exp`/`iat` are always set by every issuance
site; `sub`, `jti` and `type` are optional dict entries. -/
structure Payload where
  sub : Option String
  exp : Nat
  iat : Nat
  jti : Option String
  type : Option String
deriving DecidableEq, Repr

/-- A JWT on the wire: its payload together with whether its signature
verifies under the server-held secret. -/
structure Token where
  payload : Payload
  sigValid : Bool
deriving DecidableEq, Repr

/-- Errors surfaced by token verification (the distinct
`HTTPException(401)` branches of `SecurityManager.verify_token`). -/
inductive VerifyErr where
  | invalidToken
  | expiredToken
  | malformedToken
  | revokedToken
deriving DecidableEq, Repr

/-- `jwt.decode(token, key, options=...)`: rejects a bad signature
(`InvalidTokenError`), and, when `verify_exp` is set, an `exp` not in the
future (`ExpiredSignatureError`). -/
def jwt_decode (verify_exp : Bool) (now : Nat) (t : Token) : Except VerifyErr Payload :=
  if t.sigValid then
    if verify_exp && decide (t.payload.exp ≤ now) then Except.error VerifyErr.expiredToken
    else Except.ok t.payload
  else Except.error VerifyErr.invalidToken

/-- `SecurityManager.create_access_token(data, expires_delta)` with
`data = {"sub": sub}` as passed by the login and refresh endpoints.
`expires_delta` is in seconds; when absent the configured
`JWT_ACCESS_TOKEN_EXPIRE_MINUTES` is used.  `jti` is the fresh
`uuid.uuid4()` value. -/
def create_access_token (now : Nat) (sub : Option String) (expires_delta : Option Nat)
    (accessExpireMinutes : Nat) (jti : String) : Token :=
  let exp := now + (match expires_delta with
                    | some d => d
                    | none => accessExpireMinutes * 60)
  ⟨⟨sub, exp, now, some jti, some TOKEN_TYPE_ACCESS⟩, true⟩

/-- `SecurityManager.create_refresh_token(user_id)`; expiry is
`JWT_REFRESH_TOKEN_EXPIRE_DAYS` days from now. -/
def create_refresh_token (now : Nat) (user_id : String) (refreshExpireDays : Nat)
    (jti : String) : Token :=
  ⟨⟨some user_id, now + refreshExpireDays * 86400, now, some jti, some TOKEN_TYPE_REFRESH⟩, true⟩

/-- `generate_password_reset_token(user_id)`: a 1-hour token of type
`password_reset`.  Its payload sets `sub`, `exp`, `iat` and `type` and
nothing else — in particular no `jti`. -/
def generate_password_reset_token (now : Nat) (user_id : String) : Token :=
  ⟨⟨some user_id, now + 3600, now, none, some TOKEN_TYPE_PASSWORD_RESET⟩, true⟩

/-- `SecurityManager.verify_token(token)`: decode with signature and
expiry checks, require a `jti`, and reject a `jti` found in the blacklist
(`cache.exists("blacklist:" + jti)`). -/
def verify_token (bl : Store) (now : Nat) (t : Token) : Except VerifyErr Payload :=
  match jwt_decode true now t with
  | Except.error e => Except.error e
  | Except.ok payload =>
    match payload.jti with
    | none => Except.error VerifyErr.malformedToken
    | some jti =>
      if bl.existsKey now ("blacklist:" ++ jti) then Except.error VerifyErr.revokedToken
      else Except.ok payload

/-- `SecurityManager.blacklist_token(token)`: decode without the expiry
check; if the token has a `jti` and a positive remaining lifetime, record
`blacklist:jti` with exactly that remaining lifetime; all failures are
swallowed (the store is returned unchanged). -/
def blacklist_token (bl : Store) (now : Nat) (t : Token) : Store :=
  match jwt_decode false now t with
  | Except.error _ => bl
  | Except.ok p =>
    match p.jti with
    | none => bl
    | some jti =>
      let ttl : Int := (p.exp : Int) - (now : Int)
      if 0 < ttl then bl.set now ("blacklist:" ++ jti) (RVal.num 1) ttl.toNat
      else bl

/-- `verify_password_reset_token(token)`: decode (signature + expiry),
require `type == "password_reset"`, and return the `sub` claim; any
failure yields `none`.  No revocation-store lookup is performed. -/
def verify_password_reset_token (now : Nat) (t : Token) : Option String :=
  match jwt_decode true now t with
  | Except.error _ => none
  | Except.ok p =>
    if p.type = some TOKEN_TYPE_PASSWORD_RESET then p.sub else none

/-! ## Credential record and lockout tracker (`app/models/user.py`,
`app/crud/user.py`) -/

/-- The subset of the `User` entity the authentication core touches.
`id` is the stringified UUID. -/
structure UserRec where
  id : String
  email : String
  password_hash : String
  is_active : Bool
  failed_login_attempts : Nat
  locked_until : Option Nat
  last_login_at : Option Nat
deriving DecidableEq, Repr

/-- `User.is_locked`: locked while `now` is strictly before
`locked_until`. -/
def UserRec.is_locked (u : UserRec) (now : Nat) : Bool :=
  match u.locked_until with
  | none => false
  | some t => decide (now < t)

/-- `User.can_login`: active and not currently locked. -/
def UserRec.can_login (u : UserRec) (now : Nat) : Bool :=
  u.is_active && !(u.is_locked now)

/-- `User.record_login_success()`: stamp the login time and clear the
failure counter and any lock. -/
def record_login_success (u : UserRec) (now : Nat) : UserRec :=
  { u with last_login_at := some now, failed_login_attempts := 0, locked_until := none }

/-- `User.record_login_failure(max_attempts, lockout_duration_minutes)`:
increment the counter and, once it reaches `max_attempts`, set
`locked_until = now + lockout_duration`.  Defaults in the source are
`max_attempts = 5`, `lockout_duration_minutes = 30`. -/
def record_login_failure (u : UserRec) (now max_attempts lockout_duration_minutes : Nat) :
    UserRec :=
  let attempts := u.failed_login_attempts + 1
  if max_attempts ≤ attempts then
    { u with failed_login_attempts := attempts,
             locked_until := some (now + lockout_duration_minutes * 60) }
  else
    { u with failed_login_attempts := attempts }

/-- `CRUDUser.unlock_user`: reset the counter and clear the lock. -/
def unlock_user (u : UserRec) : UserRec :=
  { u with failed_login_attempts := 0, locked_until := none }

/-- Strip leading and trailing whitespace from a character list (the
list-level body of Python's `str.strip()`). -/
def trimChars (l : List Char) : List Char :=
  ((l.dropWhile Char.isWhitespace).reverse.dropWhile Char.isWhitespace).reverse

/-- `email.lower().strip()` as applied by `get_by_email` and the
reset-password email comparison, implemented structurally over the
character list (ASCII lowering and whitespace stripping, which is what
the flows rely on) so that it evaluates inside proofs. -/
def normEmail (e : String) : String := String.mk (trimChars (e.data.map Char.toLower))

/-- The user table; persistence of a mutated record (`db.commit()`) is
replacement by `id`. -/
def updateUser (db : List UserRec) (u : UserRec) : List UserRec :=
  db.map (fun v => if v.id = u.id then u else v)

/-- `CRUDUser.get_by_email`. -/
def get_by_email (db : List UserRec) (email : String) : Option UserRec :=
  db.find? (fun u => u.email = normEmail email)

/-- `CRUDUser.get` by primary key. -/
def get_by_id (db : List UserRec) (uid : String) : Option UserRec :=
  db.find? (fun u => u.id = uid)

/-! ## Authentication service (`app/services/auth.py`) -/

/-- `AuthService.authenticate_user(db, email, password)`.  The Argon2
wrapper functions (`verify_password`, `needs_rehash`, `get_password_hash`)
are parameters.  Returns the authenticated user (or `none`) together with
the user table after any persisted mutation: a recorded failure on a
password mismatch, or a rehash plus recorded success. -/
def authenticate_user (verify : String → String → Bool) (needsRehashFn : String → Bool)
    (hashFn : String → String) (db : List UserRec) (now max_attempts lockout_minutes : Nat)
    (email password : String) : Option UserRec × List UserRec :=
  match get_by_email db email with
  | none => (none, db)
  | some user =>
    if user.can_login now then
      if verify password user.password_hash then
        let u2 := if needsRehashFn user.password_hash
                  then { user with password_hash := hashFn password }
                  else user
        let u3 := record_login_success u2 now
        (some u3, updateUser db u3)
      else
        (none, updateUser db (record_login_failure user now max_attempts lockout_minutes))
    else
      (none, db)

/-- Errors of `AuthService.reset_password`: the two `ValueError` branches. -/
inductive ResetErr where
  | invalidToken
  | userNotFound
deriving DecidableEq, Repr

/-- `AuthService.reset_password(db, email, new_password, reset_token)`:
verify the reset token, look the subject up, require the stored email to
equal `email.lower().strip()`, then persist the new hash and, if the user
is currently locked, unlock.  Returns the updated table on success. -/
def reset_password (hashFn : String → String) (db : List UserRec) (now : Nat)
    (email new_password : String) (t : Token) : Except ResetErr (List UserRec) :=
  match verify_password_reset_token now t with
  | none => Except.error ResetErr.invalidToken
  | some uid =>
    match get_by_id db uid with
    | none => Except.error ResetErr.userNotFound
    | some user =>
      if user.email = normEmail email then
        let u2 := { user with password_hash := hashFn new_password }
        let u3 := if u2.is_locked now then unlock_user u2 else u2
        Except.ok (updateUser db u3)
      else Except.error ResetErr.userNotFound

/-- `AuthService.generate_password_reset_token(db, email)`: a reset token
for the user when the email is registered and the account active, else
`none`. -/
def generate_password_reset_token_service (db : List UserRec) (now : Nat)
    (email : String) : Option Token :=
  match get_by_email db email with
  | none => none
  | some u => if u.is_active then some (generate_password_reset_token now u.id) else none

/-! ## HTTP endpoints (`app/api/v1/auth.py`) -/

/-- The single caller-facing failure of the login endpoint: HTTP 401 with
one fixed detail message for every authentication-failure cause. -/
inductive LoginErr where
  | invalidCredentials
deriving DecidableEq, Repr

/-- The `POST /login` endpoint after the rate-limit dependency: a `none`
from `authenticate_user` becomes the uniform `invalidCredentials`; on
success an access token (TTL `JWT_ACCESS_TOKEN_EXPIRE_MINUTES`) and a
refresh token are issued.  The mutated user table is returned in both
cases (failure records are committed before the 401 is raised). -/
def login_endpoint (verify : String → String → Bool) (needsRehashFn : String → Bool)
    (hashFn : String → String) (db : List UserRec) (now max_attempts lockout_minutes : Nat)
    (email password : String) (accessExpireMinutes refreshExpireDays : Nat)
    (jtiA jtiR : String) : Except LoginErr (Token × Token) × List UserRec :=
  let r := authenticate_user verify needsRehashFn hashFn db now max_attempts lockout_minutes
             email password
  match r.1 with
  | none => (Except.error LoginErr.invalidCredentials, r.2)
  | some user =>
    (Except.ok
      (create_access_token now (some user.id) (some (accessExpireMinutes * 60))
         accessExpireMinutes jtiA,
       create_refresh_token now user.id refreshExpireDays jtiR), r.2)

/-- Failures of the `POST /refresh` endpoint (each is an HTTP 401). -/
inductive RefreshErr where
  | verify (e : VerifyErr)
  | wrongTokenType
  | invalidSub
  | invalidUser
deriving DecidableEq, Repr

/-- The `POST /refresh` endpoint: verify the presented token against the
blacklist, require `type == "refresh"` and a string `sub`, require the
subject to exist and be able to log in, then blacklist the presented
token and issue a fresh access+refresh pair.  Returns the new pair and
the updated blacklist store. -/
def refresh_endpoint (db : List UserRec) (bl : Store) (now : Nat) (t : Token)
    (accessExpireMinutes refreshExpireDays : Nat) (jtiA jtiR : String) :
    Except RefreshErr (Token × Token × Store) :=
  match verify_token bl now t with
  | Except.error e => Except.error (RefreshErr.verify e)
  | Except.ok payload =>
    if payload.type = some TOKEN_TYPE_REFRESH then
      match payload.sub with
      | none => Except.error RefreshErr.invalidSub
      | some uid =>
        match get_by_id db uid with
        | none => Except.error RefreshErr.invalidUser
        | some user =>
          if user.can_login now then
            let bl2 := blacklist_token bl now t
            Except.ok
              (create_access_token now (some user.id) (some (accessExpireMinutes * 60))
                 accessExpireMinutes jtiA,
               create_refresh_token now user.id refreshExpireDays jtiR, bl2)
          else Except.error RefreshErr.invalidUser
    else Except.error RefreshErr.wrongTokenType

/-- Failures of `get_current_user` (access-token authentication). -/
inductive AuthFail where
  | notAuthenticated (e : VerifyErr)
  | invalidSub
  | wrongTokenType
  | userNotFound
  | accountDisabled
deriving DecidableEq, Repr

/-- `get_current_user`: verify the bearer token, require a string `sub`,
require `type == "access"`, look the user up and require `can_login`. -/
def get_current_user (db : List UserRec) (bl : Store) (now : Nat) (t : Token) :
    Except AuthFail UserRec :=
  match verify_token bl now t with
  | Except.error e => Except.error (AuthFail.notAuthenticated e)
  | Except.ok payload =>
    match payload.sub with
    | none => Except.error AuthFail.invalidSub
    | some uid =>
      if payload.type = some TOKEN_TYPE_ACCESS then
        match get_by_id db uid with
        | none => Except.error AuthFail.userNotFound
        | some user =>
          if user.can_login now then Except.ok user
          else Except.error AuthFail.accountDisabled
      else Except.error AuthFail.wrongTokenType

/-- The fixed body of the `POST /password-reset-request` response.  `data`
models the optional JSON object: `some x` is a body containing a
`reset_token` field with value `x` (a token or JSON null), `none` is a
null body. -/
structure AuthResponse where
  success : Bool
  message : String
  data : Option (Option Token)
deriving DecidableEq, Repr

/-- The response message of `POST /password-reset-request` (a constant in
the source, independent of whether the email is registered). -/
def resetRequestMessage : String := "password reset email sent if registered"

/-- The `POST /password-reset-request` endpoint: always `success = true`
with the fixed message; `data` carries the generated reset token only
when `settings.is_development`. -/
def request_password_reset (db : List UserRec) (now : Nat) (is_development : Bool)
    (email : String) : AuthResponse :=
  let reset_token := generate_password_reset_token_service db now email
  { success := true
    message := resetRequestMessage
    data := if is_development then some reset_token else none }

/-- The `POST /password-reset-confirm` endpoint: delegates to
`AuthService.reset_password` with the literal `email=""` (the source
leaves a TODO to take the email from the token). -/
def confirm_password_reset (hashFn : String → String) (db : List UserRec) (now : Nat)
    (new_password : String) (t : Token) : Except ResetErr (List UserRec) :=
  reset_password hashFn db now "" new_password t

/-! ## Rate limiter (`app/core/redis.py`, `RedisRateLimiter`) -/

/-- The Redis connection as the rate limiter sees it: `none` models an
unreachable backing store (every command raises `RedisError`). -/
def Conn : Type := Option Store

/-- `RedisCache.get`: a `RedisError` is caught inside the wrapper and
turned into `None`, indistinguishable from a missing key. -/
def cache_get (conn : Conn) (now : Nat) (k : String) : Option RVal :=
  match conn with
  | none => none
  | some s => s.get now k

/-- `RedisCache.set`: a `RedisError` is caught inside the wrapper and
turned into `False`; on success the updated store is returned. -/
def cache_set (conn : Conn) (now : Nat) (k : String) (v : RVal) (expire : Nat) :
    Bool × Conn :=
  match conn with
  | none => (false, none)
  | some s => (true, some (s.set now k v expire))

/-- `self.cache.client.incr`: a raw client call, so an unreachable store
raises `RedisError` to the caller. -/
def client_incr (conn : Conn) (k : String) : Except Unit Conn :=
  match conn with
  | none => Except.error ()
  | some s => Except.ok (some (s.incr k))

/-- The compound rate-limit key `"rate_limit:{identifier}:{key}"`. -/
def rateKey (identifier key : String) : String :=
  "rate_limit:" ++ identifier ++ ":" ++ key

/-- `RedisRateLimiter.is_allowed(key, limit, window, identifier)`:
fixed-window counting.  No live counter: create it at 1 with expiry
`window` and allow.  Counter at or above `limit`: reject.  Otherwise
increment and allow.  An unparsable counter (`ValueError`) or a
`RedisError` from `incr` is caught and the check fails open (allow). -/
def is_allowed (conn : Conn) (now : Nat) (key : String) (limit window : Nat)
    (identifier : String) : Bool × Conn :=
  let redis_key := rateKey identifier key
  match cache_get conn now redis_key with
  | none =>
    let r := cache_set conn now redis_key (RVal.num 1) window
    (true, r.2)
  | some current =>
    match current.toNatOpt with
    | none => (true, conn)
    | some current_count =>
      if limit ≤ current_count then (false, conn)
      else
        match client_incr conn redis_key with
        | Except.error _ => (true, conn)
        | Except.ok c => (true, c)

/-- A sequence of `is_allowed` calls at the given times, threading the
store. -/
def runCalls (conn : Conn) (times : List Nat) (key : String) (limit window : Nat)
    (identifier : String) : List Bool × Conn :=
  match times with
  | [] => ([], conn)
  | t :: ts =>
    let r := is_allowed conn t key limit window identifier
    let rest := runCalls r.2 ts key limit window identifier
    (r.1 :: rest.1, rest.2)

/-! ## Credential hasher wrapper (`SecurityManager.needs_rehash`) -/

/-- `SecurityManager.needs_rehash(password_hash)`: wraps the Argon2
`check_needs_rehash` primitive (`check`, which may raise on a malformed
hash) in a catch-all that treats any failure as "needs rehash". -/
def needs_rehash (check : String → Except Unit Bool) (password_hash : String) : Bool :=
  match check password_hash with
  | Except.ok b => b
  | Except.error _ => true

/-! ## Concrete fixtures used by witnesses and counterexamples -/

/-- A registered, active, unlocked user. -/
def uAlice : UserRec := ⟨"u1", "a@x.com", "hash1", true, 0, none, none⟩

/-- A user table holding only `uAlice`. -/
def dbOne : List UserRec := [uAlice]

/-- A registered but deactivated user. -/
def uInactive : UserRec := ⟨"u2", "b@x.com", "hash2", false, 0, none, none⟩

/-- A user table holding only `uInactive`. -/
def dbInactive : List UserRec := [uInactive]

/-- The empty shared store. -/
def emptyStore : Store := ⟨[]⟩

/-- A refresh token for `uAlice` issued at time 0 with the default
30-day TTL. -/
def tokR : Token := create_refresh_token 0 "u1" 30 "r1"

/-- An access token for `uAlice` issued at time 0 with a 30-minute TTL. -/
def tokA : Token := create_access_token 0 (some "u1") (some 1800) 30 "a1"

/-- A password-reset token for `uAlice` issued at time 0. -/
def tokP : Token := generate_password_reset_token 0 "u1"

/-- An Argon2 `check_needs_rehash` primitive that rejects its input as
malformed (raises). -/
def failingHashCheck : String → Except Unit Bool := fun _ => Except.error ()

/-! ## Claim theorems -/

/-- C4 counterexample: the password-reset token issued by the codec
carries no `jti` claim, refuting "every issued token carries a jti". -/
theorem C4_counterexample : (generate_password_reset_token 0 "u1").payload.jti = none := rfl

/-- C4 (amended): access and refresh tokens are stamped with
`issued_at = now`, `expires_at = now + ttl` and the fresh `jti`
(`ttl` being the explicit delta, the configured minutes, or the
configured days respectively); password-reset tokens are stamped with
`issued_at = now` and `expires_at = now + 3600` but carry no `jti`. -/
theorem C4_issuance_stamps (now : Nat) (sub : Option String)
    (d accessExpireMinutes refreshExpireDays : Nat) (uid jti : String) :
    ((create_access_token now sub (some d) accessExpireMinutes jti).payload.iat = now ∧
     (create_access_token now sub (some d) accessExpireMinutes jti).payload.exp = now + d ∧
     (create_access_token now sub (some d) accessExpireMinutes jti).payload.jti = some jti) ∧
    ((create_access_token now sub none accessExpireMinutes jti).payload.exp
        = now + accessExpireMinutes * 60 ∧
     (create_access_token now sub none accessExpireMinutes jti).payload.jti = some jti) ∧
    ((create_refresh_token now uid refreshExpireDays jti).payload.iat = now ∧
     (create_refresh_token now uid refreshExpireDays jti).payload.exp
        = now + refreshExpireDays * 86400 ∧
     (create_refresh_token now uid refreshExpireDays jti).payload.jti = some jti) ∧
    ((generate_password_reset_token now uid).payload.iat = now ∧
     (generate_password_reset_token now uid).payload.exp = now + 3600 ∧
     (generate_password_reset_token now uid).payload.jti = none) :=
  ⟨⟨rfl, rfl, rfl⟩, ⟨rfl, rfl⟩, ⟨rfl, rfl, rfl⟩, ⟨rfl, rfl, rfl⟩⟩

/-- C10: `needs_rehash` never propagates a failure of the underlying
Argon2 check — whenever the primitive raises on a malformed or unparsable
stored hash, the wrapper returns `true` (needs rehash) instead. -/
theorem C10_needs_rehash_fail_true (check : String → Except Unit Bool) (s : String)
    (hfail : check s = Except.error ()) : needs_rehash check s = true := by
  unfold needs_rehash
  rw [hfail]

/-- Witness for C10 at a concrete malformed hash. -/
theorem C10_needs_rehash_fail_true_witness :
    failingHashCheck "not-an-argon2-hash" = Except.error () ∧
    needs_rehash failingHashCheck "not-an-argon2-hash" = true :=
  ⟨rfl, C10_needs_rehash_fail_true failingHashCheck "not-an-argon2-hash" rfl⟩

/-- C8: `is_allowed` fails open — with the backing store unreachable
(every command errors) it returns `true`, and with a live store whose
counter value cannot be parsed as an integer it also returns `true`. -/
theorem C8_fail_open :
    (∀ (now : Nat) (key : String) (limit window : Nat) (identifier : String),
       (is_allowed none now key limit window identifier).1 = true) ∧
    (∀ (s : Store) (now : Nat) (key : String) (limit window : Nat) (identifier : String)
       (junk : String),
       s.get now (rateKey identifier key) = some (RVal.raw junk) →
       (is_allowed (some s) now key limit window identifier).1 = true) := by
  constructor
  · intro now key limit window identifier
    rfl
  · intro s now key limit window identifier junk hjunk
    simp only [is_allowed, cache_get]
    rw [hjunk]
    rfl

/-- Witness for C8: an unreachable store and a store holding the
unparsable counter value "junk" both fail open. -/
theorem C8_fail_open_witness :
    (is_allowed none 5 "ip" 3 60 "login").1 = true ∧
    (is_allowed (some ⟨[(rateKey "login" "ip", RVal.raw "junk", 100)]⟩) 5 "ip" 3 60
        "login").1 = true :=
  ⟨C8_fail_open.1 5 "ip" 3 60 "login",
   C8_fail_open.2 ⟨[(rateKey "login" "ip", RVal.raw "junk", 100)]⟩ 5 "ip" 3 60 "login"
     "junk" (by decide)⟩

/-- C9 counterexample: under the development configuration the
password-reset request responses for a registered and an unregistered
email differ (the `data` field embeds the token, or null), so the claim
fails for that configuration. -/
theorem C9_counterexample :
    request_password_reset dbOne 5 true "a@x.com"
      ≠ request_password_reset dbOne 5 true "b@x.com" := by
  decide

/-- C9 (amended): under a non-development configuration the caller-facing
response of the password-reset request is one fixed value — same success
flag, same message, null data — for every email and every user table, so
registered and unregistered emails are indistinguishable; only the
development configuration leaks the token through `data`. -/
theorem C9_production_uniform (db1 db2 : List UserRec) (now1 now2 : Nat)
    (email1 email2 : String) :
    request_password_reset db1 now1 false email1
      = request_password_reset db2 now2 false email2 := rfl

/-- C6 counterexample: the credential for `b@x.com` exists and
authentication fails because `can_login` is false (deactivated account)
while the supplied password is correct, yet nothing is recorded — the
user table is returned unchanged with `failed_login_attempts` still 0. -/
theorem C6_counterexample :
    get_by_email dbInactive "b@x.com" = some uInactive ∧
    uInactive.can_login 0 = false ∧
    authenticate_user (fun _ _ => true) (fun _ => false) (fun p => p) dbInactive 0 5 30
        "b@x.com" "correct-password" = (none, dbInactive) ∧
    uInactive.failed_login_attempts = 0 := by
  refine ⟨by decide, by decide, ?_, rfl⟩
  decide

/-- C6 (amended): in the login flow a failure is recorded on the
credential exactly when it exists, `can_login` holds and the password
check fails; when the credential is absent or `can_login` is false the
table is left untouched; and in every one of these failure cases the
login endpoint returns the same `invalidCredentials` outcome. -/
theorem C6_failure_recording (verify : String → String → Bool) (nr : String → Bool)
    (hf : String → String) (db : List UserRec) (now max_attempts lockout_minutes : Nat)
    (email pw : String) (aMin rDays : Nat) (jA jR : String) :
    (get_by_email db email = none →
       authenticate_user verify nr hf db now max_attempts lockout_minutes email pw
         = (none, db)) ∧
    (∀ u, get_by_email db email = some u → u.can_login now = false →
       authenticate_user verify nr hf db now max_attempts lockout_minutes email pw
         = (none, db)) ∧
    (∀ u, get_by_email db email = some u → u.can_login now = true →
       verify pw u.password_hash = false →
       authenticate_user verify nr hf db now max_attempts lockout_minutes email pw
         = (none, updateUser db (record_login_failure u now max_attempts lockout_minutes))) ∧
    (∀ db2, authenticate_user verify nr hf db now max_attempts lockout_minutes email pw
         = (none, db2) →
       login_endpoint verify nr hf db now max_attempts lockout_minutes email pw aMin rDays
           jA jR = (Except.error LoginErr.invalidCredentials, db2)) := by
  refine ⟨?_, ?_, ?_, ?_⟩
  · intro hnone
    simp only [authenticate_user, hnone]
  · intro u hu hcan
    simp only [authenticate_user, hu, hcan]
    rfl
  · intro u hu hcan hverify
    simp only [authenticate_user, hu, hcan, hverify]
    rfl
  · intro db2 hauth
    simp only [login_endpoint, hauth]

/-- Witness for C6 (amended): the deactivated-credential case leaves the
table untouched, the wrong-password case on an active credential records
the failure, and both are surfaced as the same `invalidCredentials`. -/
theorem C6_failure_recording_witness :
    authenticate_user (fun _ _ => true) (fun _ => false) (fun p => p) dbInactive 0 5 30
        "b@x.com" "pw" = (none, dbInactive) ∧
    authenticate_user (fun _ _ => false) (fun _ => false) (fun p => p) dbOne 0 5 30
        "a@x.com" "wrong" = (none, updateUser dbOne (record_login_failure uAlice 0 5 30)) ∧
    login_endpoint (fun _ _ => false) (fun _ => false) (fun p => p) dbOne 0 5 30
        "a@x.com" "wrong" 30 30 "jA" "jR"
      = (Except.error LoginErr.invalidCredentials,
         updateUser dbOne (record_login_failure uAlice 0 5 30)) := by
  have h1 := (C6_failure_recording (fun _ _ => true) (fun _ => false) (fun p => p) dbInactive
    0 5 30 "b@x.com" "pw" 30 30 "jA" "jR").2.1 uInactive (by decide) (by decide)
  have h2 := (C6_failure_recording (fun _ _ => false) (fun _ => false) (fun p => p) dbOne
    0 5 30 "a@x.com" "wrong" 30 30 "jA" "jR").2.2.1 uAlice (by decide) (by decide) rfl
  have h3 := (C6_failure_recording (fun _ _ => false) (fun _ => false) (fun p => p) dbOne
    0 5 30 "a@x.com" "wrong" 30 30 "jA" "jR").2.2.2 _ h2
  exact ⟨h1, h2, h3⟩

/-- A successful `jwt.decode` with expiry verification implies a valid
signature, an `exp` in the future, and that the returned payload is the
token's. -/
theorem jwt_decode_ok (now : Nat) (t : Token) (p : Payload)
    (h : jwt_decode true now t = Except.ok p) :
    t.sigValid = true ∧ now < t.payload.exp ∧ p = t.payload := by
  unfold jwt_decode at h
  split at h
  next hs =>
    split at h
    next hexp => cases h
    next hexp =>
      injection h with h2
      subst h2
      refine ⟨hs, ?_, rfl⟩
      simp only [Bool.true_and, decide_eq_true_eq] at hexp
      omega
  next hs => cases h

/-- A token accepted by `SecurityManager.verify_token` has a valid
signature, an unexpired `exp`, a `jti`, and that `jti` is not in the
blacklist; the payload returned is the token's. -/
theorem verify_token_ok (bl : Store) (now : Nat) (t : Token) (p : Payload)
    (h : verify_token bl now t = Except.ok p) :
    t.sigValid = true ∧ now < t.payload.exp ∧ p = t.payload ∧
    ∃ j, t.payload.jti = some j ∧ bl.existsKey now ("blacklist:" ++ j) = false := by
  unfold verify_token at h
  split at h
  next e heq => cases h
  next q heq =>
    obtain ⟨hs, he, hq⟩ := jwt_decode_ok now t q heq
    subst hq
    split at h
    next hj => cases h
    next j hj =>
      split at h
      next hb => cases h
      next hb =>
        injection h with h2
        subst h2
        exact ⟨hs, he, rfl, j, hj, by simpa using hb⟩

/-- A store with a revoked `jti` `"j"` recorded until time 1000. -/
def blRevoked : Store := ⟨[("blacklist:j", RVal.num 1, 1000)]⟩

/-- A signed, unexpired password-reset token for `uAlice` whose `jti`
`"j"` is revoked in `blRevoked`. -/
def tokResetRevoked : Token := ⟨⟨some "u1", 100, 0, some "j", some "password_reset"⟩, true⟩

/-- C1 counterexample: the password-reset confirmation path accepts a
token whose `jti` is present in the revocation store — the reset flow
never consults the store (and `reset_password` does not even take it as
an input), so "jti absent from the Revocation Store" is not enforced for
that consuming operation. -/
theorem C1_counterexample :
    tokResetRevoked.payload.jti = some "j" ∧
    blRevoked.existsKey 50 ("blacklist:" ++ "j") = true ∧
    verify_password_reset_token 50 tokResetRevoked = some "u1" ∧
    (reset_password (fun p => p) dbOne 50 "a@x.com" "NewPw1" tokResetRevoked).isOk = true := by
  refine ⟨rfl, by decide, by decide, by decide⟩

/-- C1 (amended): access-token authentication and the refresh operation
accept a token only if its signature verifies, its `expires_at` is in the
future, its `type` is the expected one, and its `jti` is present and
absent from the revocation store; password-reset confirmation accepts a
token only if its signature verifies, its `expires_at` is in the future
and its `type` is `password_reset` — it performs no revocation check. -/
theorem C1_token_validation :
    (∀ (db : List UserRec) (bl : Store) (now : Nat) (t : Token) (u : UserRec),
       get_current_user db bl now t = Except.ok u →
       t.sigValid = true ∧ now < t.payload.exp ∧ t.payload.type = some TOKEN_TYPE_ACCESS ∧
       ∃ j, t.payload.jti = some j ∧ bl.existsKey now ("blacklist:" ++ j) = false) ∧
    (∀ (db : List UserRec) (bl : Store) (now : Nat) (t : Token)
       (aMin rDays : Nat) (jA jR : String) (r : Token × Token × Store),
       refresh_endpoint db bl now t aMin rDays jA jR = Except.ok r →
       t.sigValid = true ∧ now < t.payload.exp ∧ t.payload.type = some TOKEN_TYPE_REFRESH ∧
       ∃ j, t.payload.jti = some j ∧ bl.existsKey now ("blacklist:" ++ j) = false) ∧
    (∀ (now : Nat) (t : Token) (uid : String),
       verify_password_reset_token now t = some uid →
       t.sigValid = true ∧ now < t.payload.exp ∧
       t.payload.type = some TOKEN_TYPE_PASSWORD_RESET) := by
  refine ⟨?_, ?_, ?_⟩
  · intro db bl now t u h
    unfold get_current_user at h
    split at h
    next e heq => cases h
    next p heq =>
      obtain ⟨hs, he, hp, hjti⟩ := verify_token_ok bl now t p heq
      subst hp
      split at h
      next hsub => cases h
      next uid hsub =>
        split at h
        next hty => exact ⟨hs, he, hty, hjti⟩
        next hty => cases h
  · intro db bl now t aMin rDays jA jR r h
    unfold refresh_endpoint at h
    split at h
    next e heq => cases h
    next p heq =>
      obtain ⟨hs, he, hp, hjti⟩ := verify_token_ok bl now t p heq
      subst hp
      split at h
      next hty => exact ⟨hs, he, hty, hjti⟩
      next hty => cases h
  · intro now t uid h
    unfold verify_password_reset_token at h
    split at h
    next e heq => cases h
    next p heq =>
      obtain ⟨hs, he, hp⟩ := jwt_decode_ok now t p heq
      subst hp
      split at h
      next hty => exact ⟨hs, he, hty⟩
      next hty => cases h

/-- Witness for C1 (amended) at concrete accepted tokens: an access token
accepted by `get_current_user`, a refresh token accepted by the refresh
endpoint, and a reset token accepted by the reset verifier. -/
theorem C1_token_validation_witness :
    (tokA.sigValid = true ∧ 10 < tokA.payload.exp ∧
     tokA.payload.type = some TOKEN_TYPE_ACCESS ∧
     ∃ j, tokA.payload.jti = some j ∧
       emptyStore.existsKey 10 ("blacklist:" ++ j) = false) ∧
    (tokR.sigValid = true ∧ 10 < tokR.payload.exp ∧
     tokR.payload.type = some TOKEN_TYPE_REFRESH ∧
     ∃ j, tokR.payload.jti = some j ∧
       emptyStore.existsKey 10 ("blacklist:" ++ j) = false) ∧
    (tokP.sigValid = true ∧ 10 < tokP.payload.exp ∧
     tokP.payload.type = some TOKEN_TYPE_PASSWORD_RESET) := by
  refine ⟨?_, ?_, ?_⟩
  · exact C1_token_validation.1 dbOne emptyStore 10 tokA uAlice rfl
  · exact C1_token_validation.2.1 dbOne emptyStore 10 tokR 30 30 "a2" "r2" _ rfl
  · exact C1_token_validation.2.2 10 tokP "u1" (by decide)

/-- C5: the password-reset confirmation endpoint can never succeed.  It
hands the literal `email=""` to `AuthService.reset_password`, whose check
`user.email != email.lower().strip()` therefore always fires (every
stored email is non-empty), so every call — including one with a valid,
signed, unexpired `password_reset` token for an existing user — returns
an error and never persists a new password hash.  The `User` model
validates emails non-empty, hence the hypothesis. -/
theorem C5_confirm_endpoint_always_fails (hashFn : String → String) (db : List UserRec)
    (now : Nat) (new_password : String) (t : Token)
    (hemails : ∀ u ∈ db, u.email ≠ "") :
    ∃ e, confirm_password_reset hashFn db now new_password t = Except.error e := by
  unfold confirm_password_reset reset_password
  cases hv : verify_password_reset_token now t with
  | none => exact ⟨ResetErr.invalidToken, rfl⟩
  | some uid =>
    cases hg : get_by_id db uid with
    | none =>
      refine ⟨ResetErr.userNotFound, ?_⟩
      simp only [hg]
    | some user =>
      refine ⟨ResetErr.userNotFound, ?_⟩
      simp only [hg]
      have hmem : user ∈ db := by
        unfold get_by_id at hg
        exact List.mem_of_find?_eq_some hg
      have hne : ¬(user.email = normEmail "") := by
        have h0 : normEmail "" = "" := rfl
        rw [h0]
        exact hemails user hmem
      simp [hne]

/-- Witness for C5: a valid reset token for the existing user `uAlice`
still fails through the endpoint. -/
theorem C5_confirm_endpoint_always_fails_witness :
    ∃ e, confirm_password_reset (fun p => p) dbOne 10 "NewPw1" tokP = Except.error e :=
  C5_confirm_endpoint_always_fails (fun p => p) dbOne 10 "NewPw1" tokP (by decide)

/-- Reading a freshly set key: visible with the set value until the set
expiry. -/
theorem Store.get_set_same (s : Store) (now : Nat) (k : String) (v : RVal) (ex t2 : Nat) :
    (s.set now k v ex).get t2 k = if t2 < now + ex then some v else none := by
  unfold Store.set Store.get
  simp

/-- `blacklist_token` on a signed token carrying a `jti` with remaining
lifetime records `blacklist:jti` until exactly the token's own expiry. -/
theorem blacklist_token_sets (bl : Store) (now : Nat) (t : Token) (j : String)
    (hs : t.sigValid = true) (hj : t.payload.jti = some j) (hlt : now < t.payload.exp) :
    blacklist_token bl now t
      = bl.set now ("blacklist:" ++ j) (RVal.num 1) (t.payload.exp - now) := by
  have hd : jwt_decode false now t = Except.ok t.payload := by
    unfold jwt_decode
    rw [hs]
    simp
  unfold blacklist_token
  rw [hd]
  simp only [hj]
  have hpos : (0 : Int) < (t.payload.exp : Int) - (now : Int) := by omega
  rw [if_pos hpos, Int.toNat_sub]

/-- After the rotation-time blacklisting, re-verifying the same token at
any instant before its expiry reports it revoked. -/
theorem verify_token_after_rotate (bl : Store) (now1 now2 : Nat) (t : Token) (j : String)
    (hs : t.sigValid = true) (hj : t.payload.jti = some j)
    (h1 : now1 ≤ t.payload.exp) (h2 : now2 < t.payload.exp) :
    verify_token (bl.set now1 ("blacklist:" ++ j) (RVal.num 1) (t.payload.exp - now1))
        now2 t = Except.error VerifyErr.revokedToken := by
  have hd : jwt_decode true now2 t = Except.ok t.payload := by
    unfold jwt_decode
    rw [hs]
    have : ¬ t.payload.exp ≤ now2 := by omega
    simp [this]
  unfold verify_token
  rw [hd]
  simp only [hj]
  have hex : Store.existsKey
      (bl.set now1 ("blacklist:" ++ j) (RVal.num 1) (t.payload.exp - now1)) now2
      ("blacklist:" ++ j) = true := by
    unfold Store.existsKey
    rw [Store.get_set_same]
    have hw : now2 < now1 + (t.payload.exp - now1) := by omega
    simp [hw]
  simp [hex]

/-- A successful refresh call verified the presented token against the
blacklist and returned, as its final component, the store with that token
blacklisted. -/
theorem refresh_endpoint_ok_parts (db : List UserRec) (bl : Store) (now : Nat) (t : Token)
    (aMin rDays : Nat) (jA jR : String) (r : Token × Token × Store)
    (h : refresh_endpoint db bl now t aMin rDays jA jR = Except.ok r) :
    verify_token bl now t = Except.ok t.payload ∧ r.2.2 = blacklist_token bl now t := by
  unfold refresh_endpoint at h
  split at h
  next e heq => cases h
  next p heq =>
    obtain ⟨hs, he, hp, hjti⟩ := verify_token_ok bl now t p heq
    subst hp
    refine ⟨heq, ?_⟩
    split at h
    next hty =>
      split at h
      next hsub => cases h
      next uid hsub =>
        split at h
        next hu => cases h
        next user hu =>
          split at h
          next hcan =>
            injection h with h2
            subst h2
            rfl
          next hcan => cases h
    next hty => cases h

/-- C2: refresh tokens are single-use.  If a refresh call accepted `rt`,
the presented token was blacklisted before the new pair was issued, so a
second refresh call with the same `rt` (at any instant while `rt` itself
is unexpired) fails with the RevokedToken outcome. -/
theorem C2_refresh_single_use (db : List UserRec) (bl : Store) (now1 now2 : Nat)
    (t : Token) (aMin rDays : Nat) (jA jR jA2 jR2 : String) (r : Token × Token × Store)
    (h1 : refresh_endpoint db bl now1 t aMin rDays jA jR = Except.ok r)
    (h2 : now2 < t.payload.exp) :
    refresh_endpoint db r.2.2 now2 t aMin rDays jA2 jR2
      = Except.error (RefreshErr.verify VerifyErr.revokedToken) := by
  obtain ⟨hv, hbl⟩ := refresh_endpoint_ok_parts db bl now1 t aMin rDays jA jR r h1
  obtain ⟨hs, he1, -, j, hj, -⟩ := verify_token_ok bl now1 t t.payload hv
  rw [hbl, blacklist_token_sets bl now1 t j hs hj he1]
  unfold refresh_endpoint
  rw [verify_token_after_rotate bl now1 now2 t j hs hj (le_of_lt he1) h2]

/-- The blacklist store produced by the first rotation of `tokR`. -/
def blAfterRotate : Store := ⟨[("blacklist:r1", RVal.num 1, 2592000)]⟩

/-- The concrete result of the first refresh call with `tokR`. -/
def rotateResult : Token × Token × Store :=
  (create_access_token 10 (some "u1") (some 1800) 30 "a1b",
   create_refresh_token 10 "u1" 30 "r1b", blAfterRotate)

/-- Witness for C2: rotating `tokR` once at time 10 and replaying it at
time 20 yields the RevokedToken outcome. -/
theorem C2_refresh_single_use_witness :
    refresh_endpoint dbOne blAfterRotate 20 tokR 30 30 "a2" "r2"
      = Except.error (RefreshErr.verify VerifyErr.revokedToken) :=
  C2_refresh_single_use dbOne emptyStore 10 20 tokR 30 30 "a1b" "r1b" "a2" "r2"
    rotateResult rfl (by decide)

/-- `n` consecutive recorded login failures at time `now` (the state of a
credential after `n` straight wrong-password attempts). -/
def failN (u : UserRec) (now max_attempts lockout_minutes : Nat) : Nat → UserRec
  | 0 => u
  | n + 1 => record_login_failure (failN u now max_attempts lockout_minutes n) now
      max_attempts lockout_minutes

/-- A recorded failure increments the counter in both branches. -/
theorem record_login_failure_attempts (u : UserRec) (now mA lM : Nat) :
    (record_login_failure u now mA lM).failed_login_attempts
      = u.failed_login_attempts + 1 := by
  simp only [record_login_failure]
  split <;> rfl

/-- A recorded failure does not touch the activity flag. -/
theorem record_login_failure_is_active (u : UserRec) (now mA lM : Nat) :
    (record_login_failure u now mA lM).is_active = u.is_active := by
  simp only [record_login_failure]
  split <;> rfl

/-- Each recorded failure adds one to the counter. -/
theorem failN_attempts (u : UserRec) (now max_attempts lockout_minutes : Nat) :
    ∀ k, (failN u now max_attempts lockout_minutes k).failed_login_attempts
      = u.failed_login_attempts + k := by
  intro k
  induction k with
  | zero => rfl
  | succ n ih =>
    simp only [failN, record_login_failure_attempts, ih]
    omega

/-- Recorded failures do not touch the activity flag. -/
theorem failN_is_active (u : UserRec) (now max_attempts lockout_minutes : Nat) :
    ∀ k, (failN u now max_attempts lockout_minutes k).is_active = u.is_active := by
  intro k
  induction k with
  | zero => rfl
  | succ n ih =>
    simp only [failN, record_login_failure_is_active, ih]

/-- Once the counter reaches `max_attempts`, the final recorded failure
sets the lock to `now + lockout_duration`. -/
theorem failN_locked (u : UserRec) (now max_attempts lockout_minutes : Nat)
    (hzero : u.failed_login_attempts = 0) (hmax : 1 ≤ max_attempts) :
    (failN u now max_attempts lockout_minutes max_attempts).locked_until
      = some (now + lockout_minutes * 60) := by
  obtain ⟨m, rfl⟩ : ∃ m, max_attempts = m + 1 := ⟨max_attempts - 1, by omega⟩
  have hm := failN_attempts u now (m + 1) lockout_minutes m
  rw [hzero] at hm
  simp only [failN, record_login_failure, hm]
  rw [if_pos (by omega)]

/-- C3: after `max_attempts` consecutive recorded login failures the
credential's `locked_until` is set strictly in the future and `can_login`
is false, so a login attempt even with the correct password returns the
failure outcome; `can_login` stays false at every instant before
`locked_until`, becomes true again once `locked_until` is reached, is
restored by an explicit unlock, and a successful authentication resets
`failed_login_attempts` to 0 and clears the lock. -/
theorem C3_lockout (u : UserRec) (now max_attempts lockout_minutes : Nat)
    (hactive : u.is_active = true) (hzero : u.failed_login_attempts = 0)
    (hmax : 1 ≤ max_attempts) (hlock : 1 ≤ lockout_minutes) :
    (failN u now max_attempts lockout_minutes max_attempts).locked_until
        = some (now + lockout_minutes * 60) ∧
    now < now + lockout_minutes * 60 ∧
    (failN u now max_attempts lockout_minutes max_attempts).can_login now = false ∧
    (∀ (verify : String → String → Bool) (nr : String → Bool) (hf : String → String)
       (db : List UserRec) (email pw : String),
       get_by_email db email = some (failN u now max_attempts lockout_minutes max_attempts) →
       (authenticate_user verify nr hf db now max_attempts lockout_minutes email pw).1
         = none) ∧
    (∀ t2, t2 < now + lockout_minutes * 60 →
       (failN u now max_attempts lockout_minutes max_attempts).can_login t2 = false) ∧
    (∀ t2, now + lockout_minutes * 60 ≤ t2 →
       (failN u now max_attempts lockout_minutes max_attempts).can_login t2 = true) ∧
    (unlock_user (failN u now max_attempts lockout_minutes max_attempts)).can_login now
        = true ∧
    (record_login_success u now).failed_login_attempts = 0 ∧
    (record_login_success u now).locked_until = none := by
  have hl := failN_locked u now max_attempts lockout_minutes hzero hmax
  have ha := failN_is_active u now max_attempts lockout_minutes max_attempts
  have hfuture : now < now + lockout_minutes * 60 := by omega
  have hcan : ∀ t2, (failN u now max_attempts lockout_minutes max_attempts).can_login t2
      = decide (now + lockout_minutes * 60 ≤ t2) := by
    intro t2
    unfold UserRec.can_login UserRec.is_locked
    rw [hl, ha, hactive]
    by_cases hc : t2 < now + lockout_minutes * 60
    · have hc2 : ¬ (now + lockout_minutes * 60 ≤ t2) := by omega
      simp [hc, hc2]
    · have hc2 : now + lockout_minutes * 60 ≤ t2 := by omega
      simp [hc, hc2]
  have hlockedNow : (failN u now max_attempts lockout_minutes max_attempts).can_login now
      = false := by
    rw [hcan now]
    have : ¬ (now + lockout_minutes * 60 ≤ now) := by omega
    simp [this]
  refine ⟨hl, hfuture, hlockedNow, ?_, ?_, ?_, ?_, rfl, rfl⟩
  · intro verify nr hf db email pw hfind
    unfold authenticate_user
    rw [hfind]
    simp [hlockedNow]
  · intro t2 ht2
    rw [hcan t2]
    have : ¬ (now + lockout_minutes * 60 ≤ t2) := by omega
    simp [this]
  · intro t2 ht2
    rw [hcan t2]
    simpa using ht2
  · unfold unlock_user UserRec.can_login UserRec.is_locked
    simp [ha, hactive]

/-- Witness for C3 at the source defaults: 5 failures at time 0 with a
30-minute lockout. -/
theorem C3_lockout_witness :
    (failN uAlice 0 5 30 5).locked_until = some 1800 ∧
    (0 : Nat) < 1800 ∧
    (failN uAlice 0 5 30 5).can_login 0 = false ∧
    (∀ (verify : String → String → Bool) (nr : String → Bool) (hf : String → String)
       (db : List UserRec) (email pw : String),
       get_by_email db email = some (failN uAlice 0 5 30 5) →
       (authenticate_user verify nr hf db 0 5 30 email pw).1 = none) ∧
    (∀ t2, t2 < 1800 → (failN uAlice 0 5 30 5).can_login t2 = false) ∧
    (∀ t2, 1800 ≤ t2 → (failN uAlice 0 5 30 5).can_login t2 = true) ∧
    (unlock_user (failN uAlice 0 5 30 5)).can_login 0 = true ∧
    (record_login_success uAlice 0).failed_login_attempts = 0 ∧
    (record_login_success uAlice 0).locked_until = none :=
  C3_lockout uAlice 0 5 30 rfl rfl (by decide) (by decide)

/-- When no entry carries the key, `find?` misses. -/
theorem find?_entries_none {l : List (String × RVal × Nat)} {k : String}
    (h : ∀ e ∈ l, e.1 ≠ k) : l.find? (fun e => e.1 = k) = none := by
  rw [List.find?_eq_none]
  intro x hx
  simpa using h x hx

/-- Unfolding one `is_allowed` call of a call sequence. -/
theorem runCalls_cons (conn : Conn) (t : Nat) (ts : List Nat) (key : String)
    (limit window : Nat) (identifier : String) :
    runCalls conn (t :: ts) key limit window identifier
      = ((is_allowed conn t key limit window identifier).1
           :: (runCalls (is_allowed conn t key limit window identifier).2 ts key limit
                window identifier).1,
         (runCalls (is_allowed conn t key limit window identifier).2 ts key limit window
             identifier).2) := rfl

/-- First call on a key with no live counter: the counter is created at 1
with expiry `window` and the call is allowed. -/
theorem is_allowed_fresh (s : Store) (now : Nat) (key identifier : String)
    (limit window : Nat)
    (hfresh : ∀ e ∈ s.entries, e.1 ≠ rateKey identifier key) :
    is_allowed (some s) now key limit window identifier
      = (true, some (s.set now (rateKey identifier key) (RVal.num 1) window)) := by
  have hget : s.get now (rateKey identifier key) = none := by
    unfold Store.get
    rw [find?_entries_none hfresh]
  simp only [is_allowed, cache_get, hget, cache_set]

/-- A call that reads a live counter `c`: rejected without mutation when
`c` has reached the limit, otherwise allowed with the counter
incremented. -/
theorem is_allowed_counter (rest : List (String × RVal × Nat)) (now : Nat)
    (key identifier : String) (limit window c E : Nat) (ht : now < E) :
    is_allowed (some ⟨(rateKey identifier key, RVal.num c, E) :: rest⟩) now key limit
        window identifier
      = if limit ≤ c then
          (false, some ⟨(rateKey identifier key, RVal.num c, E) :: rest⟩)
        else
          (true, some (Store.incr ⟨(rateKey identifier key, RVal.num c, E) :: rest⟩
            (rateKey identifier key))) := by
  have hget : (Store.mk ((rateKey identifier key, RVal.num c, E) :: rest)).get now
      (rateKey identifier key) = some (RVal.num c) := by
    unfold Store.get
    rw [List.find?_cons_of_pos _ (by simp)]
    simp [ht]
  simp only [is_allowed, cache_get, hget, RVal.toNatOpt, client_incr]

/-- Incrementing the counter entry leaves key and expiry alone and the
other entries untouched. -/
theorem incr_inv (rest : List (String × RVal × Nat)) (key identifier : String) (c E : Nat)
    (hrest : ∀ e ∈ rest, e.1 ≠ rateKey identifier key) :
    Store.incr ⟨(rateKey identifier key, RVal.num c, E) :: rest⟩ (rateKey identifier key)
      = ⟨(rateKey identifier key, RVal.num (c + 1), E) :: rest⟩ := by
  unfold Store.incr
  congr 1
  rw [List.map_cons]
  have h1 : ∀ e ∈ rest,
      (if e.1 = rateKey identifier key then
        (e.1, (match e.2.1 with
               | RVal.num n => RVal.num (n + 1)
               | RVal.raw v => RVal.raw v), e.2.2)
      else e) = e := by
    intro e he
    simp [hrest e he]
  rw [List.map_congr_left h1]
  simp

/-- Running calls against a live counter `c` with fixed expiry `E`, all
before `E`: the i-th call is allowed exactly while the counter is below
the limit, and afterwards the store still holds the counter under the
same key and expiry. -/
theorem runCalls_counter (key identifier : String) (limit window E : Nat) :
    ∀ (ts : List Nat) (rest : List (String × RVal × Nat)) (c : Nat),
      1 ≤ c →
      (∀ t2 ∈ ts, t2 < E) →
      (∀ e ∈ rest, e.1 ≠ rateKey identifier key) →
      (runCalls (some ⟨(rateKey identifier key, RVal.num c, E) :: rest⟩) ts key limit
          window identifier).1
        = (List.range ts.length).map (fun i => decide (c + i < limit)) ∧
      ∃ c2 rest2, 1 ≤ c2 ∧ (∀ e ∈ rest2, e.1 ≠ rateKey identifier key) ∧
        (runCalls (some ⟨(rateKey identifier key, RVal.num c, E) :: rest⟩) ts key limit
            window identifier).2
          = some ⟨(rateKey identifier key, RVal.num c2, E) :: rest2⟩ := by
  intro ts
  induction ts with
  | nil =>
    intro rest c hc hts hrest
    exact ⟨rfl, c, rest, hc, hrest, rfl⟩
  | cons t ts ih =>
    intro rest c hc hts hrest
    have ht : t < E := hts t (List.mem_cons_self t ts)
    have htail : ∀ t2 ∈ ts, t2 < E := fun t2 h2 => hts t2 (List.mem_cons_of_mem _ h2)
    have hstep := is_allowed_counter rest t key identifier limit window c E ht
    by_cases hlim : limit ≤ c
    · rw [if_pos hlim] at hstep
      obtain ⟨hres, c2, rest2, hc2, hrest2, hconn⟩ := ih rest c hc htail hrest
      rw [runCalls_cons, hstep]
      dsimp only
      refine ⟨?_, c2, rest2, hc2, hrest2, hconn⟩
      simp only [List.length_cons]
      rw [hres, List.range_succ_eq_map, List.map_cons, List.map_map]
      congr 1
      · symm
        rw [decide_eq_false_iff_not]
        omega
      · apply List.map_congr_left
        intro i hi
        exact decide_eq_decide.mpr (by omega)
    · rw [if_neg hlim] at hstep
      rw [runCalls_cons, hstep]
      dsimp only
      rw [incr_inv rest key identifier c E hrest]
      obtain ⟨hres, c2, rest2, hc2, hrest2, hconn⟩ := ih rest (c + 1) (by omega) htail hrest
      refine ⟨?_, c2, rest2, hc2, hrest2, hconn⟩
      simp only [List.length_cons]
      rw [hres, List.range_succ_eq_map, List.map_cons, List.map_map]
      congr 1
      · symm
        rw [decide_eq_true_eq]
        omega
      · apply List.map_congr_left
        intro i hi
        exact decide_eq_decide.mpr (by omega)

/-- C7: fixed-window rate limiting.  Starting from a store with no live
counter for the key, a first call at `t0` followed by further calls all
inside the window `[t0, t0 + window)`: the i-th call (0-based) is allowed
exactly when `i < limit` — so with `limit ≥ 1` the first `limit` calls
return true and every further in-window call returns false — and any call
at or after `t0 + window` (the counter having expired) is allowed
again. -/
theorem C7_fixed_window (s : Store) (t0 : Nat) (ts : List Nat) (key identifier : String)
    (limit window : Nat) (hlim : 1 ≤ limit)
    (hfresh : ∀ e ∈ s.entries, e.1 ≠ rateKey identifier key)
    (hts : ∀ t2 ∈ ts, t2 < t0 + window) :
    (runCalls (some s) (t0 :: ts) key limit window identifier).1
        = (List.range (ts.length + 1)).map (fun i => decide (i < limit)) ∧
    ∀ t2, t0 + window ≤ t2 →
      (is_allowed ((runCalls (some s) (t0 :: ts) key limit window identifier).2) t2 key
          limit window identifier).1 = true := by
  have hstep := is_allowed_fresh s t0 key identifier limit window hfresh
  have hrest : ∀ e ∈ s.entries.filter (fun e => e.1 ≠ rateKey identifier key),
      e.1 ≠ rateKey identifier key := by
    intro e he
    simpa using List.of_mem_filter he
  have hset : s.set t0 (rateKey identifier key) (RVal.num 1) window
      = (⟨(rateKey identifier key, RVal.num 1, t0 + window)
           :: s.entries.filter (fun e => e.1 ≠ rateKey identifier key)⟩ : Store) := rfl
  obtain ⟨hres, c2, rest2, hc2, hrest2, hconn⟩ :=
    runCalls_counter key identifier limit window (t0 + window) ts
      (s.entries.filter (fun e => e.1 ≠ rateKey identifier key)) 1 (by omega) hts hrest
  constructor
  · rw [runCalls_cons, hstep]
    dsimp only
    rw [hset, hres, List.range_succ_eq_map, List.map_cons, List.map_map]
    congr 1
    · symm
      rw [decide_eq_true_eq]
      omega
    · apply List.map_congr_left
      intro i hi
      exact decide_eq_decide.mpr (by omega)
  · intro t2 ht2
    rw [runCalls_cons, hstep]
    dsimp only
    rw [hset, hconn]
    have hget : (Store.mk ((rateKey identifier key, RVal.num c2, t0 + window) :: rest2)).get
        t2 (rateKey identifier key) = none := by
      unfold Store.get
      rw [List.find?_cons_of_pos _ (by simp)]
      simp [Nat.not_lt.mpr ht2]
    simp only [is_allowed, cache_get, hget, cache_set]

/-- Witness for C7 at the spec's example: limit 3, window 60, four calls
inside the window allow-allow-allow-reject, and a call at the window's
end is allowed again. -/
theorem C7_fixed_window_witness :
    (runCalls (some emptyStore) (0 :: [1, 2, 3]) "ip" 3 60 "login").1
        = (List.range 4).map (fun i => decide (i < 3)) ∧
    ∀ t2, 60 ≤ t2 →
      (is_allowed ((runCalls (some emptyStore) (0 :: [1, 2, 3]) "ip" 3 60 "login").2) t2
          "ip" 3 60 "login").1 = true :=
  C7_fixed_window emptyStore 0 [1, 2, 3] "ip" "login" 3 60 (by decide)
    (by intro e he; cases he) (by decide)

end SimpleTask
